import Mathlib

/-!
Verification of the structured-generation core of `communitydocs-rag`
(`src/communitydocs_rag/llm/generate.py` and `schema.py`).

The embedding models:
* JSON values and `json.loads` (a strict RFC-8259 parser with Python dict
  semantics for duplicate object keys: the later value wins);
* the pydantic model `SimpleResult` and its `model_validate` semantics
  (lax mode: numeric strings coerce to the float field, extra keys are
  ignored by default, `min_length`/`max_length`/`min_items`/`max_items`/
  `ge`/`le` constraints are checked);
* `_build_prompt` and the retry loop `generate_structured`.

Machine floats of the source are modelled as exact rationals: every numeric
literal appearing in the repository and its tests is decimal, so parsing and
comparison of those literals agree with the float semantics at the
granularity the claims use.
-/

set_option maxRecDepth 4096

/-- JSON values as produced by `json.loads`: null, booleans, numbers
(modelled as exact rationals), strings, arrays, and objects (association
lists with distinct keys, in insertion order, as a Python `dict`). -/
inductive Json where
  | null : Json
  | bool : Bool → Json
  | num : ℚ → Json
  | str : String → Json
  | arr : List Json → Json
  | obj : List (String × Json) → Json

/-- Whitespace skipping of the JSON grammar: space, tab, newline, return. -/
def skipWs : List Char → List Char
  | [] => []
  | c :: r => if c = ' ' ∨ c = '\t' ∨ c = '\n' ∨ c = '\r' then skipWs r else c :: r

/-- Numeric value of a list of decimal digit characters. -/
def digitsToNat (ds : List Char) : Nat :=
  ds.foldl (fun a c => a * 10 + (c.toNat - 48)) 0

/-- Decoding of the escape characters of JSON string syntax. -/
def unescapeChar : Char → Option Char
  | '"' => some '"'
  | '\\' => some '\\'
  | '/' => some '/'
  | 'b' => some '\x08'
  | 'f' => some '\x0c'
  | 'n' => some '\n'
  | 'r' => some '\r'
  | 't' => some '\t'
  | _ => none

/-- Value of a hexadecimal digit character, if it is one. -/
def hexDigit (c : Char) : Option Nat :=
  if '0' ≤ c ∧ c ≤ '9' then some (c.toNat - 48)
  else if 'a' ≤ c ∧ c ≤ 'f' then some (c.toNat - 87)
  else if 'A' ≤ c ∧ c ≤ 'F' then some (c.toNat - 55)
  else none

/-- Body of a JSON string literal after the opening quote: returns the decoded
characters and the input remaining after the closing quote. -/
def parseStringRest : List Char → Option (List Char × List Char)
  | [] => none
  | '"' :: rest => some ([], rest)
  | '\\' :: 'u' :: a :: b :: c :: d :: rest =>
    match hexDigit a, hexDigit b, hexDigit c, hexDigit d with
    | some ha, some hb, some hc, some hd =>
      match parseStringRest rest with
      | some (s, r) => some (Char.ofNat (((ha * 16 + hb) * 16 + hc) * 16 + hd) :: s, r)
      | none => none
    | _, _, _, _ => none
  | '\\' :: e :: rest =>
    match unescapeChar e with
    | some c =>
      match parseStringRest rest with
      | some (s, r) => some (c :: s, r)
      | none => none
    | none => none
  | c :: rest =>
    match parseStringRest rest with
    | some (s, r) => some (c :: s, r)
    | none => none

/-- Exponent suffix of a JSON number, if present: returns the sign of the
exponent, its digits value, and the remaining input. -/
def parseExpPart : List Char → Option (Bool × Nat × List Char)
  | 'e' :: rest =>
    match rest with
    | '+' :: r2 =>
      let (es, r3) := r2.span Char.isDigit
      if es = [] then none else some (false, digitsToNat es, r3)
    | '-' :: r2 =>
      let (es, r3) := r2.span Char.isDigit
      if es = [] then none else some (true, digitsToNat es, r3)
    | _ =>
      let (es, r3) := rest.span Char.isDigit
      if es = [] then none else some (false, digitsToNat es, r3)
  | 'E' :: rest =>
    match rest with
    | '+' :: r2 =>
      let (es, r3) := r2.span Char.isDigit
      if es = [] then none else some (false, digitsToNat es, r3)
    | '-' :: r2 =>
      let (es, r3) := r2.span Char.isDigit
      if es = [] then none else some (true, digitsToNat es, r3)
    | _ =>
      let (es, r3) := rest.span Char.isDigit
      if es = [] then none else some (false, digitsToNat es, r3)
  | cs => some (false, 0, cs)

/-- Exact rational value of a decimal literal: `sign * digits * 10 ^ exponent`
with `exponent = (signed exp part) - (number of fraction digits)`. Stated with
`mkRat` and integer arithmetic only. -/
def decimalValue (neg : Bool) (intfrac : Nat) (fracLen : Nat) (eneg : Bool) (e : Nat) : ℚ :=
  let base : Int := if neg then -(intfrac : Int) else (intfrac : Int)
  let net : Int := (if eneg then -(e : Int) else (e : Int)) - (fracLen : Int)
  if 0 ≤ net then mkRat (base * (10 : Int) ^ net.toNat) 1
  else mkRat base ((10 : Nat) ^ (-net).toNat)

/-- JSON number literal: optional minus, integer part without leading zeros,
optional fraction, optional exponent. -/
def parseNumber (cs : List Char) : Option (ℚ × List Char) :=
  let signAndRest : Bool × List Char :=
    match cs with
    | '-' :: r => (true, r)
    | _ => (false, cs)
  let neg := signAndRest.1
  let cs1 := signAndRest.2
  let (ds, cs2) := cs1.span Char.isDigit
  if ds = [] then none
  else if 2 ≤ ds.length ∧ ds.head? = some '0' then none
  else
    match cs2 with
    | '.' :: cs3 =>
      let (fs, cs4) := cs3.span Char.isDigit
      if fs = [] then none
      else
        match parseExpPart cs4 with
        | some (eneg, e, cs5) =>
          some (decimalValue neg (digitsToNat (ds ++ fs)) fs.length eneg e, cs5)
        | none => none
    | _ =>
      match parseExpPart cs2 with
      | some (eneg, e, cs5) => some (decimalValue neg (digitsToNat ds) 0 eneg e, cs5)
      | none => none

/-- Insertion of a key/value pair into an object under Python dict semantics:
an existing key keeps its position but takes the new value; a new key is
appended. -/
def objInsert : List (String × Json) → String → Json → List (String × Json)
  | [], k, v => [(k, v)]
  | (k0, v0) :: rest, k, v =>
    if k0 = k then (k0, v) :: rest else (k0, v0) :: objInsert rest k v

/-- Mode of the recursive-descent JSON parser: a single value, the elements
of an array after its opening bracket, or the members of an object after its
opening brace. -/
inductive PMode where
  | val : PMode
  | elems : List Json → PMode
  | members : List (String × Json) → PMode

/-- Fuel-indexed recursive-descent parser for the JSON grammar accepted by
`json.loads`. Returns the parsed value and the remaining input. -/
def parseCore : Nat → PMode → List Char → Option (Json × List Char)
  | 0, _, _ => none
  | fuel + 1, PMode.val, cs =>
    match skipWs cs with
    | [] => none
    | c :: rest =>
      if c = '\x7b' then
        match skipWs rest with
        | '\x7d' :: r => some (Json.obj [], r)
        | _ => parseCore fuel (PMode.members []) rest
      else if c = '[' then
        match skipWs rest with
        | ']' :: r => some (Json.arr [], r)
        | _ => parseCore fuel (PMode.elems []) rest
      else if c = '"' then
        match parseStringRest rest with
        | some (s, r) => some (Json.str (String.mk s), r)
        | none => none
      else if c = 't' then
        match rest with
        | 'r' :: 'u' :: 'e' :: r => some (Json.bool true, r)
        | _ => none
      else if c = 'f' then
        match rest with
        | 'a' :: 'l' :: 's' :: 'e' :: r => some (Json.bool false, r)
        | _ => none
      else if c = 'n' then
        match rest with
        | 'u' :: 'l' :: 'l' :: r => some (Json.null, r)
        | _ => none
      else
        match parseNumber (c :: rest) with
        | some (q, r) => some (Json.num q, r)
        | none => none
  | fuel + 1, PMode.elems acc, cs =>
    match parseCore fuel PMode.val cs with
    | none => none
    | some (v, rest) =>
      match skipWs rest with
      | ',' :: r2 => parseCore fuel (PMode.elems (v :: acc)) r2
      | ']' :: r2 => some (Json.arr (v :: acc).reverse, r2)
      | _ => none
  | fuel + 1, PMode.members acc, cs =>
    match skipWs cs with
    | '"' :: r =>
      match parseStringRest r with
      | some (kcs, r2) =>
        match skipWs r2 with
        | ':' :: r3 =>
          match parseCore fuel PMode.val r3 with
          | some (v, r4) =>
            match skipWs r4 with
            | ',' :: r5 => parseCore fuel (PMode.members (objInsert acc (String.mk kcs) v)) r5
            | '\x7d' :: r5 => some (Json.obj (objInsert acc (String.mk kcs) v), r5)
            | _ => none
          | none => none
        | _ => none
      | none => none
    | _ => none

/-- Embedding of `json.loads`: parse a complete JSON document, allowing
surrounding whitespace, requiring the whole input to be consumed. Returns
`none` where the Python call raises `json.JSONDecodeError`. -/
def json_loads (s : String) : Option Json :=
  match parseCore (2 * s.length + 8) PMode.val s.data with
  | some (j, rest) => if skipWs rest = [] then some j else none
  | none => none


/-- Coercion of a string to a number in pydantic lax mode (a `float` field
accepts a numeric string): optional surrounding whitespace, optional sign,
decimal digits with an optional dot and an optional exponent, whole string
consumed. Returns `none` for non-numeric strings such as `"high"`. -/
def strToRat (s : String) : Option ℚ :=
  let cs := (skipWs (skipWs s.data).reverse).reverse
  let signAndRest : Bool × List Char :=
    match cs with
    | '-' :: r => (true, r)
    | '+' :: r => (false, r)
    | _ => (false, cs)
  let neg := signAndRest.1
  let cs1 := signAndRest.2
  let (ds, r1) := cs1.span Char.isDigit
  match r1 with
  | '.' :: r2 =>
    let (fs, r3) := r2.span Char.isDigit
    if ds = [] ∧ fs = [] then none
    else
      match parseExpPart r3 with
      | some (eneg, e, r4) =>
        if r4 = [] then some (decimalValue neg (digitsToNat (ds ++ fs)) fs.length eneg e)
        else none
      | none => none
  | _ =>
    if ds = [] then none
    else
      match parseExpPart r1 with
      | some (eneg, e, r4) =>
        if r4 = [] then some (decimalValue neg (digitsToNat ds) 0 eneg e) else none
      | none => none


/-- Embedding of the pydantic model `SimpleResult` of
`src/communitydocs_rag/llm/schema.py`: `title : str` (length 1..200),
`items : list[str]` (1..10 items), `confidence : float` (between 0 and 1,
modelled as an exact rational). -/
structure SimpleResult where
  title : String
  items : List String
  confidence : ℚ
deriving DecidableEq

/-- Validation of the `title` field: required, must be a JSON string
(pydantic v2 does not coerce other JSON types to `str`), with
`min_length=1` and `max_length=200`. -/
def validateTitle : Option Json → Except String String
  | none => Except.error "title: Field required"
  | some (Json.str s) =>
    if 1 ≤ s.length ∧ s.length ≤ 200 then Except.ok s
    else Except.error "title: String should have between 1 and 200 characters"
  | some _ => Except.error "title: Input should be a valid string"

/-- Elementwise check that every member of a JSON array is a string. -/
def allStrings : List Json → Option (List String)
  | [] => some []
  | Json.str s :: rest =>
    match allStrings rest with
    | some ss => some (s :: ss)
    | none => none
  | _ :: _ => none

/-- Validation of the `items` field: required, must be a JSON array of
strings, with `min_items=1` and `max_items=10`. -/
def validateItems : Option Json → Except String (List String)
  | none => Except.error "items: Field required"
  | some (Json.arr xs) =>
    match allStrings xs with
    | some ss =>
      if 1 ≤ ss.length ∧ ss.length ≤ 10 then Except.ok ss
      else Except.error "items: List should have between 1 and 10 items"
    | none => Except.error "items: Input should be a valid string"
  | some _ => Except.error "items: Input should be a valid list"

/-- Validation of the `confidence` field: required, must be a JSON number or
(pydantic lax mode) a numeric string, with `ge=0.0` and `le=1.0`. Booleans,
nulls, arrays and objects are rejected. -/
def validateConfidence : Option Json → Except String ℚ
  | none => Except.error "confidence: Field required"
  | some (Json.num q) =>
    if 0 ≤ q ∧ q ≤ 1 then Except.ok q
    else Except.error "confidence: Input should be between 0 and 1"
  | some (Json.str s) =>
    match strToRat s with
    | some q =>
      if 0 ≤ q ∧ q ≤ 1 then Except.ok q
      else Except.error "confidence: Input should be between 0 and 1"
    | none => Except.error "confidence: Input should be a valid number"
  | some _ => Except.error "confidence: Input should be a valid number"

/-- Embedding of `SimpleResult.model_validate`: the input must be a JSON
object; each declared field is looked up by name and validated; keys not
declared in the model are ignored (the pydantic `BaseModel` default is
`extra=ignore`, and `SimpleResult` does not override it). -/
def SimpleResult.model_validate : Json → Except String SimpleResult
  | Json.obj kvs => do
    let t ← validateTitle (kvs.lookup "title")
    let its ← validateItems (kvs.lookup "items")
    let c ← validateConfidence (kvs.lookup "confidence")
    pure ⟨t, its, c⟩
  | _ => Except.error "Input should be a valid dictionary"

/-- Serialization of a `SimpleResult` instance, as `model_dump` /
`model_dump_json` render it: an object with exactly the declared fields in
declaration order. -/
def SimpleResult.model_dump (x : SimpleResult) : Json :=
  Json.obj [("title", Json.str x.title),
            ("items", Json.arr (x.items.map Json.str)),
            ("confidence", Json.num x.confidence)]

/-- Conformance of a `SimpleResult` value to its own declared constraints. -/
def SimpleResult.conformant (x : SimpleResult) : Prop :=
  1 ≤ x.title.length ∧ x.title.length ≤ 200 ∧
  1 ≤ x.items.length ∧ x.items.length ≤ 10 ∧
  0 ≤ x.confidence ∧ x.confidence ≤ 1

/-- Fixed rule block of `_build_prompt`. -/
def rules_block : String :=
  "RULES:\n1) Output ONLY valid JSON. No markdown. No explanation. No code fences.\n2) The JSON keys MUST match the schema exactly (no extra keys, no missing keys).\n3) Strings MUST be in double quotes.\n4) No trailing commas.\n5) If there is a confidence field, it MUST be a number between 0 and 1.\n"

/-- Embedding of `_build_prompt` of `generate.py`. The compact schema hint
(`_schema_hint(schema)` in the source) is received as the rendered string of
the schema capability. In normal mode the prompt ends with the task; in
repair mode it ends with the previous invalid output (`previous_invalid or
""` in the source, hence `Option.getD ""` here) and the task is absent. -/
def _build_prompt (user_task : String) (schema_hint : String)
    (previous_invalid : Option String) (repair_mode : Bool) : String :=
  if repair_mode = false then
    rules_block ++ "\n" ++ "SCHEMA (follow this):\n" ++ schema_hint ++ "\n\n" ++
      "TASK:\n" ++ user_task ++ "\n"
  else
    rules_block ++ "\n" ++ "SCHEMA (follow this):\n" ++ schema_hint ++ "\n\n" ++
      "Your previous output was invalid JSON or did not match the schema.\n" ++
      "Repair it and output ONLY corrected JSON that matches the schema.\n\n" ++
      "INVALID OUTPUT:\n" ++ previous_invalid.getD "" ++ "\n"

/-- Schema capability as `generate_structured` consumes it: it can render a
compact hint of itself (`_schema_hint`) and validate parsed data
(`model_validate`). -/
structure PydanticSchema (α : Type) where
  schema_hint : String
  model_validate : Json → Except String α

/-- Rendering of `_schema_hint(SimpleResult)`: `json.dumps` with two-space
indentation of the compact hint built from the model JSON schema (type,
required keys, and per-property type and description). -/
def simpleResult_schema_hint : String :=
  "\x7b\n  \"type\": \"object\",\n  \"required_keys\": [\n    \"title\",\n    \"items\",\n    \"confidence\"\n  ],\n  \"properties\": \x7b\n    \"title\": \x7b\n      \"type\": \"string\",\n      \"description\": \"A short title or summary (e.g., \u0027Café noise assessment\u0027)\"\n    \x7d,\n    \"items\": \x7b\n      \"type\": \"array\",\n      \"description\": \"A list of supporting points or observations\"\n    \x7d,\n    \"confidence\": \x7b\n      \"type\": \"number\",\n      \"description\": \"Confidence level in the result (0.0 to 1.0)\"\n    \x7d\n  \x7d\n\x7d"

/-- The `SimpleResult` schema packaged as a schema capability. -/
def SimpleResult.schema : PydanticSchema SimpleResult :=
  ⟨simpleResult_schema_hint, SimpleResult.model_validate⟩

/-- Embedding of the `StructuredGenerationError` raised by
`generate_structured` on exhaustion. -/
structure StructuredGenerationError where
  message : String
  last_raw_output : String
  last_error : String
  attempts : Int
deriving DecidableEq

/-- Prompt built at the start of a loop iteration of `generate_structured`:
attempt 1 uses the normal prompt, every later attempt uses the repair prompt
carrying the current `last_raw`. -/
def promptFor (user_task schema_hint : String) (attempt : Nat) (last_raw : String) : String :=
  if attempt = 1 then _build_prompt user_task schema_hint none false
  else _build_prompt user_task schema_hint (some last_raw) true

/-- Body of the `for attempt in range(1, attempts_total + 1)` loop of
`generate_structured`, with the mutable Python state (`last_raw`,
`last_err`) passed explicitly and the remaining iteration count as fuel.
The generator capability receives the number of calls made before it (as
`FakeClient.calls` in the tests) and the prompt. The second component of
the result counts the generator calls made. -/
def genLoop {α : Type} (gen : Nat → String → Except String String)
    (schema : PydanticSchema α) (user_task : String) (attempts_total : Int) :
    Nat → Nat → String → String → Except StructuredGenerationError α × Nat
  | 0, attempt, last_raw, last_err =>
    (Except.error
      ⟨"Failed to generate valid structured output after " ++ toString attempts_total ++
          " attempts",
        last_raw, if last_err = "" then "Unknown error" else last_err, attempts_total⟩,
      attempt - 1)
  | fuel + 1, attempt, last_raw, _last_err =>
    match gen (attempt - 1) (promptFor user_task schema.schema_hint attempt last_raw) with
    | Except.error e =>
      genLoop gen schema user_task attempts_total fuel (attempt + 1) last_raw
        ("Client/LLM error: " ++ e)
    | Except.ok raw =>
      match json_loads raw with
      | none =>
        genLoop gen schema user_task attempts_total fuel (attempt + 1) raw "JSON parse error"
      | some data =>
        match schema.model_validate data with
        | Except.error e =>
          genLoop gen schema user_task attempts_total fuel (attempt + 1) raw
            ("Schema validation error: " ++ e)
        | Except.ok obj => (Except.ok obj, attempt)

/-- Embedding of `generate_structured`: `attempts_total = 1 + max_retries`
iterations (none when `max_retries` is negative, as Python `range`),
starting at attempt 1 with empty `last_raw` and `last_err`. Returns the
validated value or the terminal `StructuredGenerationError`, paired with
the number of generator calls made. -/
def generate_structured {α : Type} (gen : Nat → String → Except String String)
    (schema : PydanticSchema α) (user_task : String) (max_retries : Int) :
    Except StructuredGenerationError α × Nat :=
  genLoop gen schema user_task (1 + max_retries) (1 + max_retries).toNat 1 "" ""

/-- Replay of the `last_raw` state of the loop: `loopRaw gen hint task n` is
the value `last_raw` holds when attempt `n + 1` begins (provided attempts
`1..n` all failed). It is updated exactly when a generator call returns
successfully, so it always holds the raw text of the most recent successful
call, or the empty string when there has been none. -/
def loopRaw (gen : Nat → String → Except String String) (schema_hint user_task : String) :
    Nat → String
  | 0 => ""
  | n + 1 =>
    match gen n (promptFor user_task schema_hint (n + 1) (loopRaw gen schema_hint user_task n)) with
    | Except.ok raw => raw
    | Except.error _ => loopRaw gen schema_hint user_task n

/-- Replay of the `last_err` state of the loop: the failure reason recorded
by attempt `n` (provided attempts `1..n` all failed), empty before the first
attempt. -/
def loopErr {α : Type} (gen : Nat → String → Except String String)
    (schema : PydanticSchema α) (user_task : String) : Nat → String
  | 0 => ""
  | n + 1 =>
    match gen n (promptFor user_task schema.schema_hint (n + 1)
        (loopRaw gen schema.schema_hint user_task n)) with
    | Except.error e => "Client/LLM error: " ++ e
    | Except.ok raw =>
      match json_loads raw with
      | none => "JSON parse error"
      | some data =>
        match schema.model_validate data with
        | Except.error e => "Schema validation error: " ++ e
        | Except.ok _ => loopErr gen schema user_task n

/-- Outcome of attempt `n + 1` of the loop (provided attempts `1..n` all
failed): the validated value when the generator call, the JSON parse and the
schema validation all succeed, `none` otherwise. -/
def attemptOk {α : Type} (gen : Nat → String → Except String String)
    (schema : PydanticSchema α) (user_task : String) (n : Nat) : Option α :=
  match gen n (promptFor user_task schema.schema_hint (n + 1)
      (loopRaw gen schema.schema_hint user_task n)) with
  | Except.error _ => none
  | Except.ok raw =>
    match json_loads raw with
    | none => none
    | some data => (schema.model_validate data).toOption

/-! Sanity checks of the embedded parser and coercions on concrete inputs. -/

example : json_loads "garbage" = none := by rfl
example : json_loads "not json at all" = none := by rfl
example : json_loads "null" = some Json.null := by rfl
example : json_loads " [1, 2.5, \"a\"] " =
    some (Json.arr [Json.num (mkRat 1 1), Json.num (mkRat 5 2), Json.str "a"]) := by rfl
example :
    json_loads "\x7b\"title\":\"OK\",\"items\":[\"x\",\"y\",\"z\"],\"confidence\":0.8\x7d" =
    some (Json.obj [("title", Json.str "OK"),
      ("items", Json.arr [Json.str "x", Json.str "y", Json.str "z"]),
      ("confidence", Json.num (mkRat 4 5))]) := by rfl
example : json_loads "[0.8, -1.5e2, 2E-1]" =
    some (Json.arr [Json.num (mkRat 4 5), Json.num (mkRat (-150) 1), Json.num (mkRat 1 5)]) := by
  rfl
example : json_loads "[01]" = none := by rfl
example : strToRat "high" = none := by rfl
example : strToRat "0.5" = some (mkRat 1 2) := by rfl
example : strToRat " -2e1 " = some (mkRat (-20) 1) := by rfl

/-- Helper: an error returned by `genLoop` is always the terminal exhaustion
error, carries `attempts = attempts_total`, and is produced only after all
remaining iterations ran. -/
theorem genLoop_error_shape {α : Type} (gen : Nat → String → Except String String)
    (schema : PydanticSchema α) (task : String) (T : Int) :
    ∀ (fuel att : Nat) (lr le : String) (e : StructuredGenerationError) (n : Nat),
      1 ≤ att →
      genLoop gen schema task T fuel att lr le = (Except.error e, n) →
      e.message = "Failed to generate valid structured output after " ++ toString T ++
          " attempts" ∧
        e.attempts = T ∧ n + 1 = att + fuel := by
  intro fuel
  induction fuel with
  | zero =>
    intro att lr le e n hatt h
    simp only [genLoop, Prod.mk.injEq, Except.error.injEq] at h
    obtain ⟨rfl, rfl⟩ := h
    refine ⟨rfl, rfl, ?_⟩
    omega
  | succ fuel ih =>
    intro att lr le e n hatt h
    simp only [genLoop] at h
    split at h
    · have := ih (att + 1) _ _ e n (by omega) h
      exact ⟨this.1, this.2.1, by omega⟩
    · split at h
      · have := ih (att + 1) _ _ e n (by omega) h
        exact ⟨this.1, this.2.1, by omega⟩
      · split at h
        · have := ih (att + 1) _ _ e n (by omega) h
          exact ⟨this.1, this.2.1, by omega⟩
        · simp at h

/-- Helper: a value returned by `genLoop` comes from a successful run of the
schema validator, at an attempt within the remaining budget. -/
theorem genLoop_ok_shape {α : Type} (gen : Nat → String → Except String String)
    (schema : PydanticSchema α) (task : String) (T : Int) :
    ∀ (fuel att : Nat) (lr le : String) (v : α) (n : Nat),
      genLoop gen schema task T fuel att lr le = (Except.ok v, n) →
      (∃ data, schema.model_validate data = Except.ok v) ∧ att ≤ n ∧ n < att + fuel := by
  intro fuel
  induction fuel with
  | zero =>
    intro att lr le v n h
    simp only [genLoop, Prod.mk.injEq] at h
    exact absurd h.1 (by simp)
  | succ fuel ih =>
    intro att lr le v n h
    simp only [genLoop] at h
    split at h
    · have := ih (att + 1) _ _ v n h
      exact ⟨this.1, by omega, by omega⟩
    · split at h
      · have := ih (att + 1) _ _ v n h
        exact ⟨this.1, by omega, by omega⟩
      · split at h
        · have := ih (att + 1) _ _ v n h
          exact ⟨this.1, by omega, by omega⟩
        · rename_i x1 raw hg x2 data hp x3 obj hv2
          simp only [Prod.mk.injEq, Except.ok.injEq] at h
          obtain ⟨h1, h2⟩ := h
          subst h1
          exact ⟨⟨data, hv2⟩, by omega, by omega⟩

/-- Helper: as long as every earlier attempt failed, the loop starting from
its initial state reaches attempt `n + 1` holding exactly the replayed
state `(loopRaw n, loopErr n)`. -/
theorem genLoop_reaches {α : Type} (gen : Nat → String → Except String String)
    (schema : PydanticSchema α) (task : String) (T : Int) :
    ∀ (n fuel : Nat),
      (∀ k, k < n → attemptOk gen schema task k = none) →
      genLoop gen schema task T (fuel + n) 1 "" "" =
        genLoop gen schema task T fuel (n + 1) (loopRaw gen schema.schema_hint task n)
          (loopErr gen schema task n) := by
  intro n
  induction n with
  | zero =>
    intro fuel _
    rfl
  | succ n ih =>
    intro fuel hfail
    have h1 : fuel + (n + 1) = (fuel + 1) + n := by omega
    rw [h1, ih (fuel + 1) (fun k hk => hfail k (by omega))]
    have hn : attemptOk gen schema task n = none := hfail n (by omega)
    simp only [genLoop, Nat.add_sub_cancel]
    unfold attemptOk at hn
    cases hg : gen n (promptFor task schema.schema_hint (n + 1)
        (loopRaw gen schema.schema_hint task n)) with
    | error msg =>
      simp only [loopRaw, loopErr, hg]
    | ok raw =>
      simp only [hg] at hn
      cases hp : json_loads raw with
      | none =>
        simp only [loopRaw, loopErr, hg, hp]
      | some data =>
        simp only [hp] at hn
        cases hv : schema.model_validate data with
        | error msg =>
          simp only [loopRaw, loopErr, hg, hp, hv]
        | ok v =>
          simp [hv, Except.toOption] at hn

/-- Helper: bind on a successful `Except` applies the continuation. -/
theorem except_bind_ok {ε α β : Type} (a : α) (f : α → Except ε β) :
    (Except.ok a >>= f : Except ε β) = f a := rfl

/-- Helper: bind on a failed `Except` propagates the error. -/
theorem except_bind_error {ε α β : Type} (e : ε) (f : α → Except ε β) :
    ((Except.error e : Except ε α) >>= f) = Except.error e := rfl

/-- Helper: `allStrings` inverts the elementwise `Json.str` embedding. -/
theorem allStrings_map (l : List String) : allStrings (l.map Json.str) = some l := by
  induction l with
  | nil => rfl
  | cons a l ih => simp [allStrings, ih]

/-- C1: for every generator capability, schema, task description, and
non-negative `max_retries`, `generate_structured` terminates (it is a total
function of the embedding) with exactly one of two outcomes: a value that
the schema validator accepted, or a `StructuredGenerationError` — never
both and never neither. -/
theorem C1_outcome_dichotomy (α : Type) (gen : Nat → String → Except String String)
    (schema : PydanticSchema α) (task : String) (max_retries : Int)
    (_h : 0 ≤ max_retries) :
    ((∃ v, (generate_structured gen schema task max_retries).1 = Except.ok v ∧
        ∃ data, schema.model_validate data = Except.ok v) ∧
      ¬ ∃ e, (generate_structured gen schema task max_retries).1 = Except.error e) ∨
    ((∃ e, (generate_structured gen schema task max_retries).1 = Except.error e) ∧
      ¬ ∃ v, (generate_structured gen schema task max_retries).1 = Except.ok v) := by
  cases hr : (generate_structured gen schema task max_retries).1 with
  | ok v =>
    left
    have hpair : generate_structured gen schema task max_retries =
        (Except.ok v, (generate_structured gen schema task max_retries).2) := by
      rw [← hr]
    have hshape := genLoop_ok_shape gen schema task (1 + max_retries) (1 + max_retries).toNat
      1 "" "" v _ hpair
    exact ⟨⟨v, rfl, hshape.1⟩, by simp⟩
  | error e =>
    right
    exact ⟨⟨e, rfl⟩, by simp⟩

/-- C1 witness: the dichotomy at a concrete generator, schema, task and
budget. -/
theorem C1_outcome_dichotomy_witness :
    (0 : Int) ≤ 0 ∧
    (((∃ v, (generate_structured (fun _ _ => Except.ok "garbage") SimpleResult.schema "t" 0).1 =
          Except.ok v ∧
        ∃ data, SimpleResult.schema.model_validate data = Except.ok v) ∧
      ¬ ∃ e, (generate_structured (fun _ _ => Except.ok "garbage") SimpleResult.schema "t" 0).1 =
          Except.error e) ∨
    ((∃ e, (generate_structured (fun _ _ => Except.ok "garbage") SimpleResult.schema "t" 0).1 =
          Except.error e) ∧
      ¬ ∃ v, (generate_structured (fun _ _ => Except.ok "garbage") SimpleResult.schema "t" 0).1 =
          Except.ok v)) :=
  ⟨by decide,
    C1_outcome_dichotomy SimpleResult (fun _ _ => Except.ok "garbage") SimpleResult.schema "t" 0
      (by decide)⟩

/-- C2: for every non-negative `max_retries` the loop makes at most
`max_retries + 1` generator calls, and any raised failure carries
`attempts = max_retries + 1`; concretely, a generator that always returns
`"garbage"` with `max_retries = 2` yields the terminal failure with
`attempts = 3` and `last_raw_output = "garbage"` after exactly 3 calls. -/
theorem C2_attempt_budget (α : Type) (gen : Nat → String → Except String String)
    (schema : PydanticSchema α) (task : String) (max_retries : Int)
    (h : 0 ≤ max_retries) :
    ((generate_structured gen schema task max_retries).2 : Int) ≤ 1 + max_retries ∧
    (∀ e, (generate_structured gen schema task max_retries).1 = Except.error e →
      e.attempts = 1 + max_retries) ∧
    generate_structured (fun _ _ => Except.ok "garbage") SimpleResult.schema task 2 =
      (Except.error ⟨"Failed to generate valid structured output after 3 attempts",
        "garbage", "JSON parse error", 3⟩, 3) := by
  refine ⟨?_, ?_, by rfl⟩
  · cases hr : (generate_structured gen schema task max_retries).1 with
    | ok v =>
      have hpair : generate_structured gen schema task max_retries =
          (Except.ok v, (generate_structured gen schema task max_retries).2) := by
        rw [← hr]
      have hshape := genLoop_ok_shape gen schema task (1 + max_retries) (1 + max_retries).toNat
        1 "" "" v _ hpair
      omega
    | error e =>
      have hpair : generate_structured gen schema task max_retries =
          (Except.error e, (generate_structured gen schema task max_retries).2) := by
        rw [← hr]
      have hshape := genLoop_error_shape gen schema task (1 + max_retries) (1 + max_retries).toNat
        1 "" "" e _ (by omega) hpair
      omega
  · intro e hr
    have hpair : generate_structured gen schema task max_retries =
        (Except.error e, (generate_structured gen schema task max_retries).2) := by
      rw [← hr]
    have hshape := genLoop_error_shape gen schema task (1 + max_retries) (1 + max_retries).toNat
      1 "" "" e _ (by omega) hpair
    exact hshape.2.1

/-- C2 witness: the budget bound and attempt count at a concrete instance. -/
theorem C2_attempt_budget_witness :
    (0 : Int) ≤ 2 ∧
    (((generate_structured (fun _ _ => Except.ok "garbage") SimpleResult.schema "t" 2).2 : Int) ≤
        1 + 2 ∧
    (∀ e, (generate_structured (fun _ _ => Except.ok "garbage") SimpleResult.schema "t" 2).1 =
        Except.error e → e.attempts = 1 + 2) ∧
    generate_structured (fun _ _ => Except.ok "garbage") SimpleResult.schema "t" 2 =
      (Except.error ⟨"Failed to generate valid structured output after 3 attempts",
        "garbage", "JSON parse error", 3⟩, 3)) :=
  ⟨by decide,
    C2_attempt_budget SimpleResult (fun _ _ => Except.ok "garbage") SimpleResult.schema "t" 2
      (by decide)⟩

/-- C6: within `generate_structured`, transport errors, JSON parse errors
and schema validation errors on any attempt are recorded and never
propagated out of the loop individually: the only error ever surfaced is
the terminal exhaustion failure, raised after the full attempt budget. -/
theorem C6_only_terminal_error (α : Type) (gen : Nat → String → Except String String)
    (schema : PydanticSchema α) (task : String) (max_retries : Int)
    (h : 0 ≤ max_retries) :
    ∀ e n, generate_structured gen schema task max_retries = (Except.error e, n) →
      e.message = "Failed to generate valid structured output after " ++
          toString (1 + max_retries) ++ " attempts" ∧
      e.attempts = 1 + max_retries ∧ (n : Int) = 1 + max_retries := by
  intro e n hr
  have hshape := genLoop_error_shape gen schema task (1 + max_retries) (1 + max_retries).toNat
    1 "" "" e n (by omega) hr
  exact ⟨hshape.1, hshape.2.1, by omega⟩

/-- C6 witness: the terminal-error shape at a concrete failing run. -/
theorem C6_only_terminal_error_witness :
    (0 : Int) ≤ 0 ∧
    ((⟨"Failed to generate valid structured output after 1 attempts", "",
        "Client/LLM error: boom", 1⟩ : StructuredGenerationError).message =
      "Failed to generate valid structured output after " ++ toString (1 + (0 : Int)) ++
        " attempts" ∧
    (⟨"Failed to generate valid structured output after 1 attempts", "",
        "Client/LLM error: boom", 1⟩ : StructuredGenerationError).attempts = 1 + (0 : Int) ∧
    ((1 : Nat) : Int) = 1 + (0 : Int)) :=
  ⟨by decide,
    C6_only_terminal_error SimpleResult (fun _ _ => Except.error "boom") SimpleResult.schema
      "t" 0 (by decide)
      ⟨"Failed to generate valid structured output after 1 attempts", "",
        "Client/LLM error: boom", 1⟩ 1 (by rfl)⟩

/-- C10: for every `max_retries` strictly below 0 the iteration count
`1 + max_retries` is not positive, so the loop body never runs: the
generator is not invoked (0 calls) and the terminal failure is raised
immediately with `attempts = 1 + max_retries`, empty `last_raw_output` and
`last_error = "Unknown error"`. -/
theorem C10_negative_budget (α : Type) (gen : Nat → String → Except String String)
    (schema : PydanticSchema α) (task : String) (max_retries : Int)
    (h : max_retries < 0) :
    generate_structured gen schema task max_retries =
      (Except.error ⟨"Failed to generate valid structured output after " ++
          toString (1 + max_retries) ++ " attempts", "", "Unknown error", 1 + max_retries⟩,
        0) := by
  have h0 : (1 + max_retries).toNat = 0 := by omega
  unfold generate_structured
  rw [h0]
  simp [genLoop]

/-- C10 witness: `max_retries = -1` at a concrete generator and schema. -/
theorem C10_negative_budget_witness :
    (-1 : Int) < 0 ∧
    generate_structured (fun _ _ => Except.ok "garbage") SimpleResult.schema "t" (-1) =
      (Except.error ⟨"Failed to generate valid structured output after " ++
          toString (1 + (-1 : Int)) ++ " attempts", "", "Unknown error", 1 + (-1 : Int)⟩,
        0) :=
  ⟨by decide,
    C10_negative_budget SimpleResult (fun _ _ => Except.ok "garbage") SimpleResult.schema "t"
      (-1) (by decide)⟩

/-- C3: if an attempt's generator output parses as JSON and validates
against the schema, the loop returns that validated value at once, making
no further generator calls (the call count equals the succeeding attempt);
concretely, a generator returning `"not json at all"` and then the valid
`SimpleResult` JSON with `max_retries = 2` makes exactly 2 calls and
returns title `"OK"`, items `["x","y","z"]`, confidence `0.8`. -/
theorem C3_success_short_circuits (task : String) :
    (∀ (α : Type) (gen : Nat → String → Except String String) (schema : PydanticSchema α)
      (t : String) (T : Int) (fuel att : Nat) (lr le raw : String) (data : Json) (v : α),
      gen (att - 1) (promptFor t schema.schema_hint att lr) = Except.ok raw →
      json_loads raw = some data →
      schema.model_validate data = Except.ok v →
      genLoop gen schema t T (fuel + 1) att lr le = (Except.ok v, att)) ∧
    generate_structured
      (fun n _ => if n = 0 then Except.ok "not json at all"
        else Except.ok "\x7b\"title\":\"OK\",\"items\":[\"x\",\"y\",\"z\"],\"confidence\":0.8\x7d")
      SimpleResult.schema task 2 =
      (Except.ok ⟨"OK", ["x", "y", "z"], 0.8⟩, 2) := by
  constructor
  · intro α gen schema t T fuel att lr le raw data v hg hp hv
    simp only [genLoop, hg, hp, hv]
  · have h08 : (0.8 : ℚ) = mkRat 4 5 := by norm_num
    rw [h08]
    rfl

/-- C3 witness: the short-circuit equation at a concrete successful
attempt. -/
theorem C3_success_short_circuits_witness :
    genLoop (fun _ _ =>
        Except.ok "\x7b\"title\":\"OK\",\"items\":[\"x\",\"y\",\"z\"],\"confidence\":0.8\x7d")
      SimpleResult.schema "t" 3 3 1 "" "" =
      (Except.ok ⟨"OK", ["x", "y", "z"], mkRat 4 5⟩, 1) :=
  (C3_success_short_circuits "t").1 SimpleResult
    (fun _ _ =>
      Except.ok "\x7b\"title\":\"OK\",\"items\":[\"x\",\"y\",\"z\"],\"confidence\":0.8\x7d")
    SimpleResult.schema "t" 3 2 1 "" ""
    "\x7b\"title\":\"OK\",\"items\":[\"x\",\"y\",\"z\"],\"confidence\":0.8\x7d"
    (Json.obj [("title", Json.str "OK"),
      ("items", Json.arr [Json.str "x", Json.str "y", Json.str "z"]),
      ("confidence", Json.num (mkRat 4 5))])
    ⟨"OK", ["x", "y", "z"], mkRat 4 5⟩ (by rfl) (by rfl) (by rfl)

/-- C4: attempt 1 always builds the prompt in normal mode with the original
task; every later attempt builds it in repair mode, and the
previous-invalid output it carries is the loop's `last_raw` state, which
starts empty, is set by every successful generator call, and is left
unchanged by a failed generator call — hence it always equals the raw text
of the most recent successful call, or `""` when there has been none. The
first conjunct places the replayed state inside the real run of
`generate_structured`. -/
theorem C4_prompt_state (α : Type) (gen : Nat → String → Except String String)
    (schema : PydanticSchema α) (task : String) (max_retries : Int) (n : Nat)
    (h1 : (n : Int) < 1 + max_retries)
    (h2 : ∀ k, k < n → attemptOk gen schema task k = none) :
    (generate_structured gen schema task max_retries =
      genLoop gen schema task (1 + max_retries) ((1 + max_retries).toNat - n) (n + 1)
        (loopRaw gen schema.schema_hint task n) (loopErr gen schema task n)) ∧
    (∀ lr, promptFor task schema.schema_hint 1 lr =
      _build_prompt task schema.schema_hint none false) ∧
    (∀ j lr, 2 ≤ j → promptFor task schema.schema_hint j lr =
      _build_prompt task schema.schema_hint (some lr) true) ∧
    loopRaw gen schema.schema_hint task 0 = "" ∧
    (∀ k raw,
      gen k (promptFor task schema.schema_hint (k + 1) (loopRaw gen schema.schema_hint task k)) =
        Except.ok raw →
      loopRaw gen schema.schema_hint task (k + 1) = raw) ∧
    (∀ k e,
      gen k (promptFor task schema.schema_hint (k + 1) (loopRaw gen schema.schema_hint task k)) =
        Except.error e →
      loopRaw gen schema.schema_hint task (k + 1) = loopRaw gen schema.schema_hint task k) := by
  refine ⟨?_, ?_, ?_, rfl, ?_, ?_⟩
  · have hadd : ((1 + max_retries).toNat - n) + n = (1 + max_retries).toNat := by omega
    have := genLoop_reaches gen schema task (1 + max_retries) n ((1 + max_retries).toNat - n) h2
    rw [hadd] at this
    exact this
  · intro lr
    simp [promptFor]
  · intro j lr hj
    have : j ≠ 1 := by omega
    simp [promptFor, this]
  · intro k raw hg
    simp only [loopRaw, hg]
  · intro k e hg
    simp only [loopRaw, hg]

/-- C4 witness: the replayed state of the run at the start of attempt 1 of
a concrete instance. -/
theorem C4_prompt_state_witness :
    ((0 : Nat) : Int) < 1 + (2 : Int) ∧
    generate_structured (fun _ _ => Except.ok "garbage") SimpleResult.schema "t" 2 =
      genLoop (fun _ _ => Except.ok "garbage") SimpleResult.schema "t" (1 + 2)
        ((1 + (2 : Int)).toNat - 0) (0 + 1)
        (loopRaw (fun _ _ => Except.ok "garbage") SimpleResult.schema.schema_hint "t" 0)
        (loopErr (fun _ _ => Except.ok "garbage") SimpleResult.schema "t" 0) :=
  ⟨by decide,
    (C4_prompt_state SimpleResult (fun _ _ => Except.ok "garbage") SimpleResult.schema "t" 2 0
      (by decide) (fun k hk => absurd hk (by omega))).1⟩

/-- Helper: validation of an object succeeds exactly when all three field
validators succeed. -/
theorem model_validate_obj_isOk (kvs : List (String × Json)) :
    (SimpleResult.model_validate (Json.obj kvs)).isOk =
      ((validateTitle (List.lookup "title" kvs)).isOk &&
        (validateItems (List.lookup "items" kvs)).isOk &&
        (validateConfidence (List.lookup "confidence" kvs)).isOk) := by
  cases ht : validateTitle (List.lookup "title" kvs) <;>
    cases hi : validateItems (List.lookup "items" kvs) <;>
      cases hc : validateConfidence (List.lookup "confidence" kvs) <;>
        simp [SimpleResult.model_validate, ht, hi, hc, except_bind_ok, except_bind_error,
          Except.isOk, Except.toBool, pure, Except.pure]

/-- C5 counterexample: a parsed JSON object that supplies every declared
field of `SimpleResult` with valid values and additionally carries the
undeclared field `"extra"` is NOT rejected: validation succeeds and returns
a Structured Result (pydantic `BaseModel` defaults to `extra=ignore` and
`SimpleResult` does not override it). -/
theorem C5_unexpected_field_accepted :
    json_loads "\x7b\"title\":\"T\",\"items\":[\"a\"],\"confidence\":0.5,\"extra\":1\x7d" =
      some (Json.obj [("title", Json.str "T"), ("items", Json.arr [Json.str "a"]),
        ("confidence", Json.num (mkRat 1 2)), ("extra", Json.num (mkRat 1 1))]) ∧
    SimpleResult.model_validate (Json.obj [("title", Json.str "T"),
        ("items", Json.arr [Json.str "a"]), ("confidence", Json.num (mkRat 1 2)),
        ("extra", Json.num (mkRat 1 1))]) = Except.ok ⟨"T", ["a"], mkRat 1 2⟩ ∧
    (SimpleResult.model_validate (Json.obj [("title", Json.str "T"),
        ("items", Json.arr [Json.str "a"]), ("confidence", Json.num (mkRat 1 2)),
        ("extra", Json.num (mkRat 1 1))])).isOk = true :=
  ⟨rfl, rfl, rfl⟩

/-- C5 amended: for every parsed JSON object whose declared fields all
validate, validation succeeds with exactly the declared fields — any
additional undeclared fields are ignored (dropped), not rejected. -/
theorem C5_extra_fields_ignored (kvs : List (String × Json)) (t : String)
    (its : List String) (c : ℚ)
    (h1 : validateTitle (List.lookup "title" kvs) = Except.ok t)
    (h2 : validateItems (List.lookup "items" kvs) = Except.ok its)
    (h3 : validateConfidence (List.lookup "confidence" kvs) = Except.ok c)
    (_h4 : ∃ p, p ∈ kvs ∧ p.1 ≠ "title" ∧ p.1 ≠ "items" ∧ p.1 ≠ "confidence") :
    SimpleResult.model_validate (Json.obj kvs) = Except.ok ⟨t, its, c⟩ := by
  simp only [SimpleResult.model_validate, h1, h2, h3, except_bind_ok]
  rfl

/-- C5 witness: the amended statement at a concrete object carrying the
undeclared field `"extra"`. -/
theorem C5_extra_fields_ignored_witness :
    SimpleResult.model_validate (Json.obj [("title", Json.str "T"), ("extra", Json.null),
        ("items", Json.arr [Json.str "a"]), ("confidence", Json.num (mkRat 1 2))]) =
      Except.ok ⟨"T", ["a"], mkRat 1 2⟩ :=
  C5_extra_fields_ignored
    [("title", Json.str "T"), ("extra", Json.null), ("items", Json.arr [Json.str "a"]),
      ("confidence", Json.num (mkRat 1 2))]
    "T" ["a"] (mkRat 1 2) (by rfl) (by rfl) (by rfl)
    ⟨("extra", Json.null), List.Mem.tail _ (List.Mem.head _), by decide, by decide, by decide⟩

/-- C7: a parsed JSON value missing a required field, carrying a
wrongly-typed field, or carrying an out-of-range `confidence` fails
validation, and a validation failure makes the loop advance to the next
attempt; concretely `title="Example"`, `items=["a","b","c"]`,
`confidence="high"` fails (the string does not coerce to a number). -/
theorem C7_validation_failures :
    (∀ kvs : List (String × Json),
      List.lookup "title" kvs = none ∨ List.lookup "items" kvs = none ∨
        List.lookup "confidence" kvs = none →
      (SimpleResult.model_validate (Json.obj kvs)).isOk = false) ∧
    (∀ (kvs : List (String × Json)) (v : Json), List.lookup "title" kvs = some v →
      (∀ s, v ≠ Json.str s) → (SimpleResult.model_validate (Json.obj kvs)).isOk = false) ∧
    (∀ (kvs : List (String × Json)) (v : Json), List.lookup "items" kvs = some v →
      (∀ xs, v ≠ Json.arr xs) → (SimpleResult.model_validate (Json.obj kvs)).isOk = false) ∧
    (∀ (kvs : List (String × Json)) (q : ℚ),
      List.lookup "confidence" kvs = some (Json.num q) → (q < 0 ∨ 1 < q) →
      (SimpleResult.model_validate (Json.obj kvs)).isOk = false) ∧
    (∀ j : Json, (∀ kvs, j ≠ Json.obj kvs) →
      (SimpleResult.model_validate j).isOk = false) ∧
    (∀ (α : Type) (gen : Nat → String → Except String String) (schema : PydanticSchema α)
      (t : String) (T : Int) (fuel att : Nat) (lr le raw : String) (data : Json)
      (msg : String),
      gen (att - 1) (promptFor t schema.schema_hint att lr) = Except.ok raw →
      json_loads raw = some data →
      schema.model_validate data = Except.error msg →
      genLoop gen schema t T (fuel + 1) att lr le =
        genLoop gen schema t T fuel (att + 1) raw ("Schema validation error: " ++ msg)) ∧
    (json_loads
        "\x7b\"title\":\"Example\",\"items\":[\"a\",\"b\",\"c\"],\"confidence\":\"high\"\x7d" =
      some (Json.obj [("title", Json.str "Example"),
        ("items", Json.arr [Json.str "a", Json.str "b", Json.str "c"]),
        ("confidence", Json.str "high")]) ∧
    (SimpleResult.model_validate (Json.obj [("title", Json.str "Example"),
        ("items", Json.arr [Json.str "a", Json.str "b", Json.str "c"]),
        ("confidence", Json.str "high")])).isOk = false) := by
  refine ⟨?_, ?_, ?_, ?_, ?_, ?_, rfl, rfl⟩
  · intro kvs h
    rw [model_validate_obj_isOk]
    rcases h with h | h | h <;> rw [h] <;>
      simp [validateTitle, validateItems, validateConfidence, Except.isOk, Except.toBool]
  · intro kvs v hv hns
    rw [model_validate_obj_isOk, hv]
    cases v with
    | str s => exact absurd rfl (hns s)
    | null => simp [validateTitle, Except.isOk, Except.toBool]
    | bool b => simp [validateTitle, Except.isOk, Except.toBool]
    | num q => simp [validateTitle, Except.isOk, Except.toBool]
    | arr xs => simp [validateTitle, Except.isOk, Except.toBool]
    | obj kvs2 => simp [validateTitle, Except.isOk, Except.toBool]
  · intro kvs v hv hns
    rw [model_validate_obj_isOk, hv]
    cases v with
    | arr xs => exact absurd rfl (hns xs)
    | null => simp [validateItems, Except.isOk, Except.toBool]
    | bool b => simp [validateItems, Except.isOk, Except.toBool]
    | num q => simp [validateItems, Except.isOk, Except.toBool]
    | str s => simp [validateItems, Except.isOk, Except.toBool]
    | obj kvs2 => simp [validateItems, Except.isOk, Except.toBool]
  · intro kvs q hv hq
    rw [model_validate_obj_isOk, hv]
    have hneg : ¬ (0 ≤ q ∧ q ≤ 1) := by
      rcases hq with h | h
      · intro hand
        linarith [hand.1]
      · intro hand
        linarith [hand.2]
    simp only [validateConfidence, hneg, if_false, if_neg hneg]
    simp [Except.isOk, Except.toBool]
  · intro j hj
    cases j with
    | obj kvs => exact absurd rfl (hj kvs)
    | null => simp [SimpleResult.model_validate, Except.isOk, Except.toBool]
    | bool b => simp [SimpleResult.model_validate, Except.isOk, Except.toBool]
    | num q => simp [SimpleResult.model_validate, Except.isOk, Except.toBool]
    | str s => simp [SimpleResult.model_validate, Except.isOk, Except.toBool]
    | arr xs => simp [SimpleResult.model_validate, Except.isOk, Except.toBool]
  · intro α gen schema t T fuel att lr le raw data msg hg hp hv
    simp only [genLoop, hg, hp, hv]

/-- C7 witness: the missing-field part applied at the empty object. -/
theorem C7_validation_failures_witness :
    (SimpleResult.model_validate (Json.obj [])).isOk = false :=
  C7_validation_failures.1 [] (Or.inl rfl)

/-- C8: serializing a schema-conformant `SimpleResult` and validating the
serialized form succeeds and returns the same value:
`model_validate (model_dump x) = ok x` whenever `x` satisfies the declared
constraints. -/
theorem C8_roundtrip (x : SimpleResult) (h : x.conformant) :
    SimpleResult.model_validate x.model_dump = Except.ok x := by
  obtain ⟨h1, h2, h3, h4, h5, h6⟩ := h
  have ht : validateTitle (some (Json.str x.title)) = Except.ok x.title := by
    simp [validateTitle, h1, h2]
  have hi : validateItems (some (Json.arr (x.items.map Json.str))) = Except.ok x.items := by
    simp [validateItems, allStrings_map, h3, h4]
  have hc : validateConfidence (some (Json.num x.confidence)) = Except.ok x.confidence := by
    simp [validateConfidence, h5, h6]
  have l1 : List.lookup "title" [("title", Json.str x.title),
      ("items", Json.arr (x.items.map Json.str)), ("confidence", Json.num x.confidence)] =
      some (Json.str x.title) := rfl
  have l2 : List.lookup "items" [("title", Json.str x.title),
      ("items", Json.arr (x.items.map Json.str)), ("confidence", Json.num x.confidence)] =
      some (Json.arr (x.items.map Json.str)) := rfl
  have l3 : List.lookup "confidence" [("title", Json.str x.title),
      ("items", Json.arr (x.items.map Json.str)), ("confidence", Json.num x.confidence)] =
      some (Json.num x.confidence) := rfl
  simp only [SimpleResult.model_dump, SimpleResult.model_validate, l1, l2, l3, ht, hi, hc,
    except_bind_ok]
  rfl

/-- C8 witness: the round trip at a concrete conformant value. -/
theorem C8_roundtrip_witness :
    SimpleResult.model_validate (SimpleResult.model_dump ⟨"T", ["a", "b"], mkRat 1 2⟩) =
      Except.ok ⟨"T", ["a", "b"], mkRat 1 2⟩ :=
  C8_roundtrip ⟨"T", ["a", "b"], mkRat 1 2⟩
    ⟨by decide, by decide, by decide, by decide, by decide, by decide⟩

/-- C9: the prompt of `_build_prompt` ends with the task section in normal
mode and with the previous-invalid-output section in repair mode; in repair
mode the prompt does not depend on the task at all (the quantified prefixes
are independent of the task), and a missing previous output renders an
empty previous-output section instead of failing. -/
theorem C9_prompt_sections (task hint : String) (prev : Option String) :
    (∃ pre, ∀ t2, _build_prompt t2 hint prev false =
      pre ++ ("TASK:\n" ++ t2 ++ "\n")) ∧
    (∃ pre2, ∀ t2, _build_prompt t2 hint prev true =
      pre2 ++ ("INVALID OUTPUT:\n" ++ prev.getD "" ++ "\n")) ∧
    _build_prompt task hint none true = _build_prompt task hint (some "") true := by
  refine ⟨⟨rules_block ++ "\n" ++ "SCHEMA (follow this):\n" ++ hint ++ "\n\n", ?_⟩,
    ⟨rules_block ++ "\n" ++ "SCHEMA (follow this):\n" ++ hint ++ "\n\n" ++
      "Your previous output was invalid JSON or did not match the schema.\n" ++
      "Repair it and output ONLY corrected JSON that matches the schema.\n\n", ?_⟩, rfl⟩
  · intro t2
    simp only [_build_prompt, String.append_assoc, reduceIte]
    try rfl
  · intro t2
    simp only [_build_prompt, String.append_assoc, reduceIte]
    try rfl
